import Mathlib

/-!
Shallow embedding of the blue-green deployment switch controller
(`switch_deploy.py`) of the vision-on-the-edge repository, together with
theorems settling the specification claims about it.

The controller is a single sequential script.  External effects (docker
commands, DNS polling, the nginx config test) are modelled by an
environment record carrying the outcome each external call would report;
`main` is then a pure function from that environment to the emitted event
trace, the process exit code, and the final on-disk state.
-/

namespace SwitchDeploy

/-- `ACTIVE_FILE = "active_container.txt"` from the source. -/
def ACTIVE_FILE : String := "active_container.txt"

/-- `NGINX_CONF_PATH = "./nginx/includes/active.conf"` from the source. -/
def NGINX_CONF_PATH : String := "./nginx/includes/active.conf"

/-- Characters stripped by Python's `str.strip()` (ASCII whitespace). -/
def pyWhitespace (ch : Char) : Bool :=
  ch = ' ' || ch = '\t' || ch = '\n' || ch = '\r' || ch = '\x0b' || ch = '\x0c'

/-- Python `s.strip()`: drop leading and trailing whitespace. -/
def pyStrip (s : String) : String :=
  ⟨((s.data.dropWhile pyWhitespace).reverse.dropWhile pyWhitespace).reverse⟩

/-- `get_active()` from the source: if the active file exists, read it,
strip it, and return the value when it is `"blue"` or `"green"`;
in every other case (absent file included) return `"green"`.
`file = none` models an absent `active_container.txt`. -/
def get_active (file : Option String) : String :=
  match file with
  | some s =>
    let val := pyStrip s
    if val = "blue" || val = "green" then val else "green"
  | none => "green"

/-- `get_inactive(active)` from the source:
`"blue" if active == "green" else "green"`. -/
def get_inactive (active : String) : String :=
  if active = "green" then "blue" else "green"

/-! ### The nginx routing-config template

`write_nginx_routing_config` writes one fixed f-string template with the
target color interpolated in four `proxy_pass` directives.  `lit0` … `lit4`
are the literal segments between the interpolations, transcribed from the
source; `render` is the resulting pure text of the config. -/

def lit0 : String :=
  "\nserver \x7b\n    listen 8000;\n\n    location / \x7b\n        proxy_pass http://app_"

def lit1 : String :=
  ":5000;\n        proxy_connect_timeout 2s;\n        proxy_read_timeout 3600s;\n        proxy_set_header Host $host;\n        proxy_set_header X-Real-IP $remote_addr;\n        proxy_set_header X-Forwarded-For $proxy_add_x_forwarded_for;\n    \x7d\n\n    location /socket.io/ \x7b\n        proxy_pass http://app_"

def lit2 : String :=
  ":5000/socket.io/;\n        proxy_http_version 1.1;\n        proxy_set_header Upgrade $http_upgrade;\n        proxy_set_header Connection \"Upgrade\";\n        proxy_set_header Host $host;\n        proxy_set_header X-Real-IP $remote_addr;\n        proxy_set_header X-Forwarded-For $proxy_add_x_forwarded_for;\n        proxy_read_timeout 3600s;\n        proxy_buffering off;\n    \x7d\n\n    location /video_feed \x7b\n        proxy_pass http://app_"

def lit3 : String :=
  ":5000/video_feed;\n        proxy_http_version 1.1;\n        proxy_set_header Connection '';\n        proxy_buffering off;\n        proxy_request_buffering off;\n        proxy_cache off;\n        sendfile off;\n        tcp_nodelay on;\n        chunked_transfer_encoding off;\n        proxy_read_timeout 3600s;\n    \x7d\n\n    location /health \x7b\n        proxy_pass http://app_"

def lit4 : String :=
  ":5000/health;\n        access_log off;\n    \x7d\n\x7d\n"

/-- The config text produced by `write_nginx_routing_config(target_color)`:
the fixed template with `target_color` substituted at the four
`proxy_pass http://app_{target_color}…` interpolation points. -/
def render (target_color : String) : String :=
  lit0 ++ target_color ++ lit1 ++ target_color ++ lit2 ++ target_color
    ++ lit3 ++ target_color ++ lit4

/-- Number of (possibly overlapping) occurrences of `pat` in `l`. -/
def countSubstr (pat : List Char) : List Char → Nat
  | [] => if pat = [] then 1 else 0
  | c :: rest =>
    (if pat.isPrefixOf (c :: rest) then 1 else 0) + countSubstr pat rest

/-! ### Events and the run environment -/

/-- Externally visible actions the controller performs, in order. -/
inductive Event where
  | stop (svc : String)
  | rm (svc : String)
  | sleepStop
  | start (svc : String)
  | sleepStart
  | healthCheck (svc : String)
  | writeConf (text : String)
  | upNginx
  | dnsWait (svc : String) (ok : Bool)
  | testConf (ok : Bool)
  | reload
  | writeActive (c : String)
  deriving DecidableEq, Repr

def Event.isStop : Event → Bool
  | .stop _ => true
  | _ => false

def Event.isStart : Event → Bool
  | .start _ => true
  | _ => false

def Event.isHealthCheck : Event → Bool
  | .healthCheck _ => true
  | _ => false

def Event.isReload : Event → Bool
  | .reload => true
  | _ => false

def Event.isWriteActive : Event → Bool
  | .writeActive _ => true
  | _ => false

/-- Outcomes the external world reports to one invocation of the script:
initial file contents plus the return code / success of each external call.
A return code of `0` means the command succeeded. -/
structure Env where
  activeFile : Option String
  nginxConfFile : String
  stopRc : Nat
  rmRc : Nat
  startRc : Nat
  upNginxRc : Nat
  dnsOk : Bool
  testOk : Bool
  reloadRc : Nat
  deriving Repr

/-- Result of one invocation of the script: the emitted event trace, the
process exit code (`sys.exit` argument, `0` for normal completion), and the
final contents of the active-state file and of the nginx config file. -/
structure RunResult where
  trace : List Event
  exitCode : Nat
  activeAfter : Option String
  confAfter : String
  deriving Repr

/-- `reload_nginx()` from the source: run `nginx -t` (outcome `testOk`); if
it passes, issue `nginx -s reload` (return code `reloadRc`, raising
`CalledProcessError` on nonzero); otherwise raise `RuntimeError` without
reloading.  Returns the emitted events and `none` on success or
`some exitCode` for the raised error (`CalledProcessError rc ↦ rc`,
`RuntimeError ↦ 1`, matching `main`'s exception handlers). -/
def reload_nginx (testOk : Bool) (reloadRc : Nat) : List Event × Option Nat :=
  if testOk then
    ([.testConf true, .reload], if reloadRc ≠ 0 then some reloadRc else none)
  else ([.testConf false], some 1)

/-- `main()` from the source: read active color, stop and remove the old
app container, start the new one, write the nginx routing config, ensure
nginx is up, wait for DNS resolution of the new upstream, test and reload
nginx, and finally write the new active color.  `CalledProcessError e`
exits with `e.returncode`; any other exception exits with `1`. -/
def main (env : Env) : RunResult :=
  let active := get_active env.activeFile
  let inactive := get_inactive active
  let e1 := Event.stop ("app_" ++ active)
  if env.stopRc ≠ 0 then
    { trace := [e1], exitCode := env.stopRc,
      activeAfter := env.activeFile, confAfter := env.nginxConfFile }
  else
    let e2 := Event.rm ("app_" ++ active)
    if env.rmRc ≠ 0 then
      { trace := [e1, e2], exitCode := env.rmRc,
        activeAfter := env.activeFile, confAfter := env.nginxConfFile }
    else
      let e3 := Event.sleepStop
      let e4 := Event.start ("app_" ++ inactive)
      if env.startRc ≠ 0 then
        { trace := [e1, e2, e3, e4], exitCode := env.startRc,
          activeAfter := env.activeFile, confAfter := env.nginxConfFile }
      else
        let e5 := Event.sleepStart
        let e6 := Event.writeConf (render inactive)
        let e7 := Event.upNginx
        if env.upNginxRc ≠ 0 then
          { trace := [e1, e2, e3, e4, e5, e6, e7], exitCode := env.upNginxRc,
            activeAfter := env.activeFile, confAfter := render inactive }
        else
          let e8 := Event.dnsWait ("app_" ++ inactive) env.dnsOk
          if env.dnsOk = false then
            { trace := [e1, e2, e3, e4, e5, e6, e7, e8], exitCode := 1,
              activeAfter := env.activeFile, confAfter := render inactive }
          else
            match reload_nginx env.testOk env.reloadRc with
            | (evs, some rc) =>
              { trace := [e1, e2, e3, e4, e5, e6, e7, e8] ++ evs, exitCode := rc,
                activeAfter := env.activeFile, confAfter := render inactive }
            | (evs, none) =>
              { trace := [e1, e2, e3, e4, e5, e6, e7, e8] ++ evs
                  ++ [Event.writeActive inactive],
                exitCode := 0,
                activeAfter := some inactive, confAfter := render inactive }

/-! ### write_active as a sequence of file operations

`write_active(c)` in the source is `open(ACTIVE_FILE, "w")` followed by
`f.write(c)`: opening with mode `"w"` truncates the file in place, then
the new content is written.  `write_active_ops` records those operations;
`applyOps` gives the observable content of `ACTIVE_FILE` after a prefix of
them (so `applyOps old (ops.take k)` is what a crash after `k` operations
leaves behind). -/

inductive FileOp where
  | openTrunc (path : String)
  | writeStr (path : String) (s : String)
  | rename (src : String) (dst : String)
  deriving DecidableEq, Repr

def FileOp.isRename : FileOp → Bool
  | .rename _ _ => true
  | _ => false

/-- The file operations performed by `write_active(active_color)`. -/
def write_active_ops (active_color : String) : List FileOp :=
  [.openTrunc ACTIVE_FILE, .writeStr ACTIVE_FILE active_color]

/-- Content of `ACTIVE_FILE` after performing the given operations,
starting from content `old`. -/
def applyOps (old : String) : List FileOp → String
  | [] => old
  | .openTrunc p :: rest => applyOps (if p = ACTIVE_FILE then "" else old) rest
  | .writeStr p s :: rest =>
    applyOps (if p = ACTIVE_FILE then old ++ s else old) rest
  | .rename _ _ :: rest => applyOps old rest

/-! ### Branch-shape lemmas for `main`

One lemma per control-flow branch, giving the exact `RunResult` produced
in that case. -/

lemma main_stopFail (env : Env) (h1 : env.stopRc ≠ 0) :
    main env =
      { trace := [.stop ("app_" ++ get_active env.activeFile)],
        exitCode := env.stopRc, activeAfter := env.activeFile,
        confAfter := env.nginxConfFile } := by
  simp [main, h1]

lemma main_rmFail (env : Env) (h1 : env.stopRc = 0) (h2 : env.rmRc ≠ 0) :
    main env =
      { trace := [.stop ("app_" ++ get_active env.activeFile),
                  .rm ("app_" ++ get_active env.activeFile)],
        exitCode := env.rmRc, activeAfter := env.activeFile,
        confAfter := env.nginxConfFile } := by
  simp [main, h1, h2]

lemma main_startFail (env : Env) (h1 : env.stopRc = 0) (h2 : env.rmRc = 0)
    (h3 : env.startRc ≠ 0) :
    main env =
      { trace := [.stop ("app_" ++ get_active env.activeFile),
                  .rm ("app_" ++ get_active env.activeFile),
                  .sleepStop,
                  .start ("app_" ++ get_inactive (get_active env.activeFile))],
        exitCode := env.startRc, activeAfter := env.activeFile,
        confAfter := env.nginxConfFile } := by
  simp [main, h1, h2, h3]

lemma main_upFail (env : Env) (h1 : env.stopRc = 0) (h2 : env.rmRc = 0)
    (h3 : env.startRc = 0) (h4 : env.upNginxRc ≠ 0) :
    main env =
      { trace := [.stop ("app_" ++ get_active env.activeFile),
                  .rm ("app_" ++ get_active env.activeFile),
                  .sleepStop,
                  .start ("app_" ++ get_inactive (get_active env.activeFile)),
                  .sleepStart,
                  .writeConf (render (get_inactive (get_active env.activeFile))),
                  .upNginx],
        exitCode := env.upNginxRc, activeAfter := env.activeFile,
        confAfter := render (get_inactive (get_active env.activeFile)) } := by
  simp [main, h1, h2, h3, h4]

lemma main_dnsFail (env : Env) (h1 : env.stopRc = 0) (h2 : env.rmRc = 0)
    (h3 : env.startRc = 0) (h4 : env.upNginxRc = 0) (h5 : env.dnsOk = false) :
    main env =
      { trace := [.stop ("app_" ++ get_active env.activeFile),
                  .rm ("app_" ++ get_active env.activeFile),
                  .sleepStop,
                  .start ("app_" ++ get_inactive (get_active env.activeFile)),
                  .sleepStart,
                  .writeConf (render (get_inactive (get_active env.activeFile))),
                  .upNginx,
                  .dnsWait ("app_" ++ get_inactive (get_active env.activeFile)) false],
        exitCode := 1, activeAfter := env.activeFile,
        confAfter := render (get_inactive (get_active env.activeFile)) } := by
  simp [main, h1, h2, h3, h4, h5]

lemma main_testFail (env : Env) (h1 : env.stopRc = 0) (h2 : env.rmRc = 0)
    (h3 : env.startRc = 0) (h4 : env.upNginxRc = 0) (h5 : env.dnsOk = true)
    (h6 : env.testOk = false) :
    main env =
      { trace := [.stop ("app_" ++ get_active env.activeFile),
                  .rm ("app_" ++ get_active env.activeFile),
                  .sleepStop,
                  .start ("app_" ++ get_inactive (get_active env.activeFile)),
                  .sleepStart,
                  .writeConf (render (get_inactive (get_active env.activeFile))),
                  .upNginx,
                  .dnsWait ("app_" ++ get_inactive (get_active env.activeFile)) true,
                  .testConf false],
        exitCode := 1, activeAfter := env.activeFile,
        confAfter := render (get_inactive (get_active env.activeFile)) } := by
  simp [main, reload_nginx, h1, h2, h3, h4, h5, h6]

lemma main_reloadFail (env : Env) (h1 : env.stopRc = 0) (h2 : env.rmRc = 0)
    (h3 : env.startRc = 0) (h4 : env.upNginxRc = 0) (h5 : env.dnsOk = true)
    (h6 : env.testOk = true) (h7 : env.reloadRc ≠ 0) :
    main env =
      { trace := [.stop ("app_" ++ get_active env.activeFile),
                  .rm ("app_" ++ get_active env.activeFile),
                  .sleepStop,
                  .start ("app_" ++ get_inactive (get_active env.activeFile)),
                  .sleepStart,
                  .writeConf (render (get_inactive (get_active env.activeFile))),
                  .upNginx,
                  .dnsWait ("app_" ++ get_inactive (get_active env.activeFile)) true,
                  .testConf true, .reload],
        exitCode := env.reloadRc, activeAfter := env.activeFile,
        confAfter := render (get_inactive (get_active env.activeFile)) } := by
  simp [main, reload_nginx, h1, h2, h3, h4, h5, h6, h7]

lemma main_success (env : Env) (h1 : env.stopRc = 0) (h2 : env.rmRc = 0)
    (h3 : env.startRc = 0) (h4 : env.upNginxRc = 0) (h5 : env.dnsOk = true)
    (h6 : env.testOk = true) (h7 : env.reloadRc = 0) :
    main env =
      { trace := [.stop ("app_" ++ get_active env.activeFile),
                  .rm ("app_" ++ get_active env.activeFile),
                  .sleepStop,
                  .start ("app_" ++ get_inactive (get_active env.activeFile)),
                  .sleepStart,
                  .writeConf (render (get_inactive (get_active env.activeFile))),
                  .upNginx,
                  .dnsWait ("app_" ++ get_inactive (get_active env.activeFile)) true,
                  .testConf true, .reload,
                  .writeActive (get_inactive (get_active env.activeFile))],
        exitCode := 0,
        activeAfter := some (get_inactive (get_active env.activeFile)),
        confAfter := render (get_inactive (get_active env.activeFile)) } := by
  simp [main, reload_nginx, h1, h2, h3, h4, h5, h6, h7]

/-- A run that exited `0` passed every external gate. -/
lemma success_conditions (env : Env) (h : (main env).exitCode = 0) :
    env.stopRc = 0 ∧ env.rmRc = 0 ∧ env.startRc = 0 ∧ env.upNginxRc = 0 ∧
    env.dnsOk = true ∧ env.testOk = true ∧ env.reloadRc = 0 := by
  by_cases h1 : env.stopRc = 0
  · by_cases h2 : env.rmRc = 0
    · by_cases h3 : env.startRc = 0
      · by_cases h4 : env.upNginxRc = 0
        · by_cases h5 : env.dnsOk = true
          · by_cases h6 : env.testOk = true
            · by_cases h7 : env.reloadRc = 0
              · exact ⟨h1, h2, h3, h4, h5, h6, h7⟩
              · rw [main_reloadFail env h1 h2 h3 h4 h5 h6 h7] at h
                exact absurd h h7
            · rw [main_testFail env h1 h2 h3 h4 h5
                (by simpa using h6)] at h
              simp at h
          · rw [main_dnsFail env h1 h2 h3 h4 (by simpa using h5)] at h
            simp at h
        · rw [main_upFail env h1 h2 h3 h4] at h
          exact absurd h h4
      · rw [main_startFail env h1 h2 h3] at h
        exact absurd h h3
    · rw [main_rmFail env h1 h2] at h
      exact absurd h h2
  · rw [main_stopFail env h1] at h
    exact absurd h h1

/-- Shape of the result of any run that exited `0`. -/
lemma success_shape (env : Env) (h : (main env).exitCode = 0) :
    main env =
      { trace := [.stop ("app_" ++ get_active env.activeFile),
                  .rm ("app_" ++ get_active env.activeFile),
                  .sleepStop,
                  .start ("app_" ++ get_inactive (get_active env.activeFile)),
                  .sleepStart,
                  .writeConf (render (get_inactive (get_active env.activeFile))),
                  .upNginx,
                  .dnsWait ("app_" ++ get_inactive (get_active env.activeFile)) true,
                  .testConf true, .reload,
                  .writeActive (get_inactive (get_active env.activeFile))],
        exitCode := 0,
        activeAfter := some (get_inactive (get_active env.activeFile)),
        confAfter := render (get_inactive (get_active env.activeFile)) } := by
  obtain ⟨h1, h2, h3, h4, h5, h6, h7⟩ := success_conditions env h
  exact main_success env h1 h2 h3 h4 h5 h6 h7

/-! ### Fixed environments used as concrete inputs -/

/-- All external calls succeed; initial file contents as given. -/
def envOkFrom (f : Option String) (conf : String) : Env :=
  { activeFile := f, nginxConfFile := conf, stopRc := 0, rmRc := 0,
    startRc := 0, upNginxRc := 0, dnsOk := true, testOk := true,
    reloadRc := 0 }

/-- Active state `"green"` on disk, current config is the green render,
every external call succeeds. -/
def envOkGreen : Env := envOkFrom (some "green") (render "green")

/-- Active-state file absent, every external call succeeds. -/
def envBootstrapOk : Env := envOkFrom none (render "green")

/-- As `envOkGreen`, but DNS resolution of the new upstream times out. -/
def envDnsFail : Env := { envOkGreen with dnsOk := false }

/-- As `envOkGreen`, but `nginx -t` rejects the config. -/
def envTestFail : Env := { envOkGreen with testOk := false }

/-- As `envOkGreen`, but `docker compose stop` fails with code 7. -/
def envStopFail : Env := { envOkGreen with stopRc := 7 }

/-! ### General helper lemmas -/

/-- A run that did not exit `0` leaves the active-state file unchanged. -/
lemma exit_ne_zero_frame (env : Env) (h : (main env).exitCode ≠ 0) :
    (main env).activeAfter = env.activeFile := by
  by_cases h1 : env.stopRc = 0
  · by_cases h2 : env.rmRc = 0
    · by_cases h3 : env.startRc = 0
      · by_cases h4 : env.upNginxRc = 0
        · by_cases h5 : env.dnsOk = true
          · by_cases h6 : env.testOk = true
            · by_cases h7 : env.reloadRc = 0
              · exact absurd (by rw [main_success env h1 h2 h3 h4 h5 h6 h7]) h
              · rw [main_reloadFail env h1 h2 h3 h4 h5 h6 h7]
            · rw [main_testFail env h1 h2 h3 h4 h5 (by simpa using h6)]
          · rw [main_dnsFail env h1 h2 h3 h4 (by simpa using h5)]
        · rw [main_upFail env h1 h2 h3 h4]
      · rw [main_startFail env h1 h2 h3]
    · rw [main_rmFail env h1 h2]
  · rw [main_stopFail env h1]

/-- The active-state file is only ever written in a run that exits `0`. -/
lemma writeActive_only_on_success (env : Env)
    (h : (main env).trace.any Event.isWriteActive = true) :
    (main env).exitCode = 0 := by
  by_cases h1 : env.stopRc = 0
  · by_cases h2 : env.rmRc = 0
    · by_cases h3 : env.startRc = 0
      · by_cases h4 : env.upNginxRc = 0
        · by_cases h5 : env.dnsOk = true
          · by_cases h6 : env.testOk = true
            · by_cases h7 : env.reloadRc = 0
              · rw [main_success env h1 h2 h3 h4 h5 h6 h7]
              · rw [main_reloadFail env h1 h2 h3 h4 h5 h6 h7] at h
                exact Bool.noConfusion h
            · rw [main_testFail env h1 h2 h3 h4 h5 (by simpa using h6)] at h
              exact Bool.noConfusion h
          · rw [main_dnsFail env h1 h2 h3 h4 (by simpa using h5)] at h
            exact Bool.noConfusion h
        · rw [main_upFail env h1 h2 h3 h4] at h
          exact Bool.noConfusion h
      · rw [main_startFail env h1 h2 h3] at h
        exact Bool.noConfusion h
    · rw [main_rmFail env h1 h2] at h
      exact Bool.noConfusion h
  · rw [main_stopFail env h1] at h
    exact Bool.noConfusion h

/-! ### Claim C1 -/

/-- C1 counterexample: in a fully successful run the controller issues the
proxy reload without ever having performed a health check — the trace of
the run from `envOkGreen` contains a reload event and no health-check
event, refuting the claim that a health-status poll precedes every
routing update. -/
theorem no_health_check_in_successful_run :
    (main envOkGreen).trace.any Event.isReload = true ∧
    (main envOkGreen).trace.any Event.isHealthCheck = false ∧
    (main envOkGreen).exitCode = 0 := by
  decide

/-- C1 (amended): the orchestrator performs no health check at all (the
health-check step is disabled in the code); the only gate before the
reload is DNS reachability of the new upstream: a reload happens only when
DNS resolution and the config test succeeded, and when DNS resolution
times out the run fails with a nonzero exit code, without reloading and
without touching the persisted active state. -/
theorem reload_gated_by_dns_not_health (env : Env) :
    (main env).trace.any Event.isHealthCheck = false ∧
    ((main env).trace.any Event.isReload = true →
      env.dnsOk = true ∧ env.testOk = true) ∧
    (env.dnsOk = false →
      (main env).trace.any Event.isReload = false ∧
      (main env).activeAfter = env.activeFile ∧
      (main env).exitCode ≠ 0) := by
  by_cases h1 : env.stopRc = 0
  · by_cases h2 : env.rmRc = 0
    · by_cases h3 : env.startRc = 0
      · by_cases h4 : env.upNginxRc = 0
        · by_cases h5 : env.dnsOk = true
          · by_cases h6 : env.testOk = true
            · by_cases h7 : env.reloadRc = 0
              · rw [main_success env h1 h2 h3 h4 h5 h6 h7]
                exact ⟨rfl, fun _ => ⟨h5, h6⟩,
                  fun hd => absurd (h5.symm.trans hd) (by decide)⟩
              · rw [main_reloadFail env h1 h2 h3 h4 h5 h6 h7]
                exact ⟨rfl, fun _ => ⟨h5, h6⟩,
                  fun hd => absurd (h5.symm.trans hd) (by decide)⟩
            · rw [main_testFail env h1 h2 h3 h4 h5 (by simpa using h6)]
              exact ⟨rfl, fun hc => Bool.noConfusion hc,
                fun hd => absurd (h5.symm.trans hd) (by decide)⟩
          · rw [main_dnsFail env h1 h2 h3 h4 (by simpa using h5)]
            exact ⟨rfl, fun hc => Bool.noConfusion hc,
              fun _ => ⟨rfl, rfl, Nat.one_ne_zero⟩⟩
        · rw [main_upFail env h1 h2 h3 h4]
          exact ⟨rfl, fun hc => Bool.noConfusion hc,
            fun _ => ⟨rfl, rfl, h4⟩⟩
      · rw [main_startFail env h1 h2 h3]
        exact ⟨rfl, fun hc => Bool.noConfusion hc,
          fun _ => ⟨rfl, rfl, h3⟩⟩
    · rw [main_rmFail env h1 h2]
      exact ⟨rfl, fun hc => Bool.noConfusion hc,
        fun _ => ⟨rfl, rfl, h2⟩⟩
  · rw [main_stopFail env h1]
    exact ⟨rfl, fun hc => Bool.noConfusion hc,
      fun _ => ⟨rfl, rfl, h1⟩⟩

/-- Witness for C1's amended theorem at the concrete environment where DNS
resolution times out. -/
theorem reload_gated_by_dns_not_health_witness :
    envDnsFail.dnsOk = false ∧
    (main envDnsFail).trace.any Event.isReload = false ∧
    (main envDnsFail).activeAfter = envDnsFail.activeFile ∧
    (main envDnsFail).exitCode ≠ 0 :=
  ⟨rfl, (reload_gated_by_dns_not_health envDnsFail).2.2 rfl⟩

/-! ### Claim C2 -/

/-- C2 counterexample: with the active-state file absent and every
external call succeeding, the run stops and removes `app_green` (stop is
called), starts `app_blue` (not `app_green`), and the active-state file
ends containing `"blue"` (not `"green"`), refuting every conjunct of the
claimed bootstrap behaviour except the exit code. -/
theorem bootstrap_run_stops_green_and_activates_blue :
    (main envBootstrapOk).trace.any Event.isStop = true ∧
    Event.stop "app_green" ∈ (main envBootstrapOk).trace ∧
    Event.start "app_blue" ∈ (main envBootstrapOk).trace ∧
    Event.start "app_green" ∉ (main envBootstrapOk).trace ∧
    (main envBootstrapOk).activeAfter = some "blue" ∧
    (main envBootstrapOk).activeAfter ≠ some "green" ∧
    (main envBootstrapOk).exitCode = 0 := by
  decide

/-- C2 (amended): when the active-state file is absent the code treats the
default `"green"` as the *currently active* color, not as the target: a
successful run stops and removes `app_green`, starts `app_blue` exactly
once, leaves the active-state file containing `"blue"`, and exits 0. -/
theorem bootstrap_treats_default_as_active (env : Env)
    (hf : env.activeFile = none) (h0 : (main env).exitCode = 0) :
    (main env).trace.countP Event.isStart = 1 ∧
    Event.stop "app_green" ∈ (main env).trace ∧
    Event.rm "app_green" ∈ (main env).trace ∧
    Event.start "app_blue" ∈ (main env).trace ∧
    (main env).activeAfter = some "blue" ∧
    (main env).exitCode = 0 := by
  rw [success_shape env h0, hf]
  decide

/-- Witness for C2's amended theorem at the concrete bootstrap
environment. -/
theorem bootstrap_treats_default_as_active_witness :
    envBootstrapOk.activeFile = none ∧
    (main envBootstrapOk).exitCode = 0 ∧
    (main envBootstrapOk).activeAfter = some "blue" :=
  ⟨rfl, by decide,
    (bootstrap_treats_default_as_active envBootstrapOk rfl (by decide)).2.2.2.2.1⟩

/-! ### Claim C3 -/

/-- C3 (confirmed): the active state is written only in runs that exit 0,
as the final step after the reload; any failed run leaves the active-state
file unchanged and exits nonzero, propagating the failing sub-command's
return code where one exists (`CalledProcessError`) and using the generic
code 1 for the DNS-timeout and config-test failures (`RuntimeError`). -/
theorem persist_last_and_exit_codes (env : Env) :
    ((main env).exitCode ≠ 0 → (main env).activeAfter = env.activeFile) ∧
    ((main env).trace.any Event.isWriteActive = true →
      (main env).exitCode = 0) ∧
    ((main env).exitCode = 0 →
      (main env).activeAfter =
        some (get_inactive (get_active env.activeFile)) ∧
      ∃ pre, (main env).trace =
        pre ++ [Event.writeActive (get_inactive (get_active env.activeFile))]) ∧
    (env.stopRc ≠ 0 → (main env).exitCode = env.stopRc) ∧
    (env.stopRc = 0 → env.rmRc ≠ 0 → (main env).exitCode = env.rmRc) ∧
    (env.stopRc = 0 → env.rmRc = 0 → env.startRc ≠ 0 →
      (main env).exitCode = env.startRc) ∧
    (env.stopRc = 0 → env.rmRc = 0 → env.startRc = 0 → env.upNginxRc ≠ 0 →
      (main env).exitCode = env.upNginxRc) ∧
    (env.stopRc = 0 → env.rmRc = 0 → env.startRc = 0 → env.upNginxRc = 0 →
      env.dnsOk = false → (main env).exitCode = 1) ∧
    (env.stopRc = 0 → env.rmRc = 0 → env.startRc = 0 → env.upNginxRc = 0 →
      env.dnsOk = true → env.testOk = false → (main env).exitCode = 1) ∧
    (env.stopRc = 0 → env.rmRc = 0 → env.startRc = 0 → env.upNginxRc = 0 →
      env.dnsOk = true → env.testOk = true → env.reloadRc ≠ 0 →
      (main env).exitCode = env.reloadRc) := by
  refine ⟨exit_ne_zero_frame env, writeActive_only_on_success env, ?_,
    fun h1 => by rw [main_stopFail env h1],
    fun h1 h2 => by rw [main_rmFail env h1 h2],
    fun h1 h2 h3 => by rw [main_startFail env h1 h2 h3],
    fun h1 h2 h3 h4 => by rw [main_upFail env h1 h2 h3 h4],
    fun h1 h2 h3 h4 h5 => by rw [main_dnsFail env h1 h2 h3 h4 h5],
    fun h1 h2 h3 h4 h5 h6 => by rw [main_testFail env h1 h2 h3 h4 h5 h6],
    fun h1 h2 h3 h4 h5 h6 h7 =>
      by rw [main_reloadFail env h1 h2 h3 h4 h5 h6 h7]⟩
  intro h0
  rw [success_shape env h0]
  exact ⟨rfl,
    ⟨[.stop ("app_" ++ get_active env.activeFile),
      .rm ("app_" ++ get_active env.activeFile),
      .sleepStop,
      .start ("app_" ++ get_inactive (get_active env.activeFile)),
      .sleepStart,
      .writeConf (render (get_inactive (get_active env.activeFile))),
      .upNginx,
      .dnsWait ("app_" ++ get_inactive (get_active env.activeFile)) true,
      .testConf true, .reload], rfl⟩⟩

/-- Witness for C3 at the concrete environment where the stop command
fails with return code 7. -/
theorem persist_last_and_exit_codes_witness :
    (main envStopFail).exitCode = 7 ∧
    (main envStopFail).activeAfter = envStopFail.activeFile :=
  ⟨(persist_last_and_exit_codes envStopFail).2.2.2.1 (by decide),
   (persist_last_and_exit_codes envStopFail).1 (by decide)⟩

/-! ### Claim C4 -/

/-- C4 counterexample: `write_active` performs no rename at all (so it is
not a write-to-temp-then-atomic-rename), and a crash after its first file
operation (the truncating open) leaves the state file containing `""` —
neither the old value `"green"` nor the new value `"blue"`, i.e. exactly
the corrupted intermediate state the claim says cannot be observed. -/
theorem write_active_crash_leaves_neither_color :
    (write_active_ops "blue").any FileOp.isRename = false ∧
    applyOps "green" ((write_active_ops "blue").take 1) = "" ∧
    applyOps "green" ((write_active_ops "blue").take 1) ≠ "green" ∧
    applyOps "green" ((write_active_ops "blue").take 1) ≠ "blue" ∧
    applyOps "green" (write_active_ops "blue") = "blue" := by
  decide

/-- C4 (amended): `write_active` overwrites the state file in place — a
truncating open of the target path followed by a write, with no temporary
file, no rename and no flush to stable storage; consequently the complete
write stores the new color, but a crash between the truncation and the
write leaves the file empty. -/
theorem write_active_in_place_no_rename (c old : String) :
    (write_active_ops c).any FileOp.isRename = false ∧
    applyOps old ((write_active_ops c).take 1) = "" ∧
    applyOps old (write_active_ops c) = c := by
  refine ⟨rfl, rfl, ?_⟩
  show ("" : String) ++ c = c
  cases c
  rfl

/-! ### Claim C5 -/

/-- C5 (confirmed): the reloader issues the reload instruction iff the
config validator accepted; on a rejected config it emits no reload event
and fails (exit code 1), and no whole run in which the validator rejects
ever contains a reload event. -/
theorem reload_iff_config_valid :
    (∀ (testOk : Bool) (reloadRc : Nat),
      ((reload_nginx testOk reloadRc).1.any Event.isReload = true ↔
        testOk = true) ∧
      (testOk = false →
        (reload_nginx testOk reloadRc).1.any Event.isReload = false ∧
        (reload_nginx testOk reloadRc).2 = some 1)) ∧
    (∀ env : Env, env.testOk = false →
      (main env).trace.any Event.isReload = false) := by
  constructor
  · intro testOk reloadRc
    cases testOk
    · exact ⟨⟨fun hc => Bool.noConfusion hc, fun hc => Bool.noConfusion hc⟩,
        fun _ => ⟨rfl, rfl⟩⟩
    · exact ⟨⟨fun _ => rfl, fun _ => rfl⟩, fun hc => Bool.noConfusion hc⟩
  · intro env h6
    by_cases h1 : env.stopRc = 0
    · by_cases h2 : env.rmRc = 0
      · by_cases h3 : env.startRc = 0
        · by_cases h4 : env.upNginxRc = 0
          · by_cases h5 : env.dnsOk = true
            · rw [main_testFail env h1 h2 h3 h4 h5 h6]
              rfl
            · rw [main_dnsFail env h1 h2 h3 h4 (by simpa using h5)]
              rfl
          · rw [main_upFail env h1 h2 h3 h4]
            rfl
        · rw [main_startFail env h1 h2 h3]
          rfl
      · rw [main_rmFail env h1 h2]
        rfl
    · rw [main_stopFail env h1]
      rfl

/-- Witness for C5 at a rejected config, both for the reloader in
isolation and for the whole run from `envTestFail`. -/
theorem reload_iff_config_valid_witness :
    (reload_nginx false 0).1.any Event.isReload = false ∧
    (reload_nginx false 0).2 = some 1 ∧
    (main envTestFail).trace.any Event.isReload = false :=
  ⟨((reload_iff_config_valid.1 false 0).2 rfl).1,
   ((reload_iff_config_valid.1 false 0).2 rfl).2,
   reload_iff_config_valid.2 envTestFail rfl⟩

/-! ### Claim C6 -/

/-- C6 counterexample: starting from active `"green"` with the green
config on disk, a run in which `nginx -t` rejects the config ends with the
config file differing from its pre-run content — the new (blue) render was
already written before validation — refuting byte-for-byte preservation. -/
theorem failed_validation_leaves_new_config_on_disk :
    (main envTestFail).confAfter ≠ envTestFail.nginxConfFile ∧
    (main envTestFail).trace.any Event.isReload = false ∧
    (main envTestFail).exitCode = 1 := by
  decide

/-- C6 (amended): the routing config file is overwritten with the new
render *before* validation runs, so when validation fails the file holds
the new (unvalidated) config rather than the previous one; no reload is
issued, the active state is unchanged, and the run exits 1. -/
theorem failed_validation_config_overwritten (env : Env)
    (h1 : env.stopRc = 0) (h2 : env.rmRc = 0) (h3 : env.startRc = 0)
    (h4 : env.upNginxRc = 0) (h5 : env.dnsOk = true)
    (h6 : env.testOk = false) :
    (main env).confAfter = render (get_inactive (get_active env.activeFile)) ∧
    (main env).trace.any Event.isReload = false ∧
    (main env).activeAfter = env.activeFile ∧
    (main env).exitCode = 1 := by
  rw [main_testFail env h1 h2 h3 h4 h5 h6]
  exact ⟨rfl, rfl, rfl, rfl⟩

/-- Witness for C6's amended theorem at the concrete failing-validation
environment. -/
theorem failed_validation_config_overwritten_witness :
    (main envTestFail).confAfter =
      render (get_inactive (get_active envTestFail.activeFile)) ∧
    (main envTestFail).trace.any Event.isReload = false ∧
    (main envTestFail).activeAfter = envTestFail.activeFile ∧
    (main envTestFail).exitCode = 1 :=
  failed_validation_config_overwritten envTestFail rfl rfl rfl rfl rfl rfl

/-! ### Claim C7 -/

/-- C7 (confirmed): in every run that exits 0 there is exactly one start
event, it targets the new color, and the stop and remove of the old color
occur strictly before it in the trace. -/
theorem stop_completes_before_start (env : Env)
    (h : (main env).exitCode = 0) :
    (main env).trace.countP Event.isStart = 1 ∧
    ∃ pre post,
      (main env).trace =
        pre ++ Event.start ("app_" ++ get_inactive (get_active env.activeFile))
          :: post ∧
      Event.stop ("app_" ++ get_active env.activeFile) ∈ pre ∧
      Event.rm ("app_" ++ get_active env.activeFile) ∈ pre ∧
      pre.countP Event.isStart = 0 ∧
      post.countP Event.isStart = 0 := by
  rw [success_shape env h]
  refine ⟨rfl,
    [.stop ("app_" ++ get_active env.activeFile),
     .rm ("app_" ++ get_active env.activeFile), .sleepStop],
    [.sleepStart,
     .writeConf (render (get_inactive (get_active env.activeFile))),
     .upNginx,
     .dnsWait ("app_" ++ get_inactive (get_active env.activeFile)) true,
     .testConf true, .reload,
     .writeActive (get_inactive (get_active env.activeFile))],
    rfl, ?_, ?_, rfl, rfl⟩
  · exact List.Mem.head _
  · exact List.Mem.tail _ (List.Mem.head _)

/-- Witness for C7 at the concrete all-success environment. -/
theorem stop_completes_before_start_witness :
    (main envOkGreen).exitCode = 0 ∧
    (main envOkGreen).trace.countP Event.isStart = 1 := by
  have h : (main envOkGreen).exitCode = 0 := by decide
  exact ⟨h, (stop_completes_before_start envOkGreen h).1⟩

/-! ### Claim C8 -/

set_option maxRecDepth 400000 in
/-- C8 counterexample: in the all-success run from active `"green"`, the
written config contains the upstream name `app_blue` four times (once per
proxied location), not exactly once as claimed. -/
theorem render_blue_upstream_count_four_not_one :
    countSubstr "app_blue".data (main envOkGreen).confAfter.data = 4 ∧
    countSubstr "app_blue".data (main envOkGreen).confAfter.data ≠ 1 ∧
    (main envOkGreen).exitCode = 0 := by
  decide

set_option maxRecDepth 400000 in
/-- C8 (amended): when the active state is `"green"` and all gates
succeed, the run writes exactly `render "blue"` as the config (so the
config text is a pure function of the target color against the fixed
template), that text contains the upstream name `app_blue` exactly four
times, the active-state file ends containing `"blue"`, and the run exits
0. -/
theorem scenario_c_four_upstreams (env : Env)
    (hf : env.activeFile = some "green")
    (h0 : (main env).exitCode = 0) :
    (main env).confAfter = render "blue" ∧
    countSubstr "app_blue".data (main env).confAfter.data = 4 ∧
    (main env).activeAfter = some "blue" ∧
    (main env).exitCode = 0 := by
  rw [success_shape env h0, hf]
  refine ⟨rfl, ?_, rfl, rfl⟩
  decide

/-- Witness for C8's amended theorem at the concrete all-success
environment with active `"green"`. -/
theorem scenario_c_four_upstreams_witness :
    envOkGreen.activeFile = some "green" ∧
    (main envOkGreen).exitCode = 0 ∧
    (main envOkGreen).activeAfter = some "blue" :=
  ⟨rfl, by decide,
    (scenario_c_four_upstreams envOkGreen rfl (by decide)).2.2.1⟩

/-! ### Claim C9: chains of successive runs -/

/-- The per-run part of an environment that does not depend on the
previous run: everything except the active-state file contents. -/
structure EnvR where
  nginxConfFile : String
  stopRc : Nat
  rmRc : Nat
  startRc : Nat
  upNginxRc : Nat
  dnsOk : Bool
  testOk : Bool
  reloadRc : Nat
  deriving Repr

/-- Combine the persisted active-state contents with a per-run
environment. -/
def mkEnv (f : Option String) (r : EnvR) : Env :=
  { activeFile := f, nginxConfFile := r.nginxConfFile, stopRc := r.stopRc,
    rmRc := r.rmRc, startRc := r.startRc, upNginxRc := r.upNginxRc,
    dnsOk := r.dnsOk, testOk := r.testOk, reloadRc := r.reloadRc }

/-- Active-state file contents after running the script once per element
of `rs`, threading the file contents from each run to the next. -/
def chainRuns : Option String → List EnvR → Option String
  | f, [] => f
  | f, r :: rs => chainRuns (main (mkEnv f r)).activeAfter rs

/-- Whether every run in the chain exits 0. -/
def allSucceed : Option String → List EnvR → Bool
  | _, [] => true
  | f, r :: rs =>
    ((main (mkEnv f r)).exitCode == 0)
      && allSucceed (main (mkEnv f r)).activeAfter rs

/-- All external calls succeed, green config initially on disk. -/
def envROk : EnvR :=
  { nginxConfFile := render "green", stopRc := 0, rmRc := 0, startRc := 0,
    upNginxRc := 0, dnsOk := true, testOk := true, reloadRc := 0 }

lemma success_active (env : Env) (h : (main env).exitCode = 0) :
    (main env).activeAfter =
      some (get_inactive (get_active env.activeFile)) := by
  rw [success_shape env h]

lemma get_active_roundtrip (c : String) (h : c = "blue" ∨ c = "green") :
    get_active (some c) = c := by
  rcases h with h | h <;> subst h <;> decide

lemma get_inactive_mem (c : String) :
    get_inactive c = "blue" ∨ get_inactive c = "green" := by
  unfold get_inactive
  by_cases h : c = "green" <;> simp [h]

lemma chain_from_color (rs : List EnvR) :
    ∀ c, (c = "blue" ∨ c = "green") → allSucceed (some c) rs = true →
      chainRuns (some c) rs = some (get_inactive^[rs.length] c) := by
  induction rs with
  | nil => intro c _ _; rfl
  | cons r rs ih =>
    intro c hc hall
    simp only [allSucceed, Bool.and_eq_true, beq_iff_eq] at hall
    obtain ⟨h0, hrest⟩ := hall
    have hact : (main (mkEnv (some c) r)).activeAfter
        = some (get_inactive c) := by
      rw [success_active _ h0]
      rw [show (mkEnv (some c) r).activeFile = some c from rfl,
        get_active_roundtrip c hc]
    rw [chainRuns, hact]
    rw [hact] at hrest
    rw [ih (get_inactive c) (get_inactive_mem c) hrest]
    rw [List.length_cons, Function.iterate_succ_apply]

/-- C9 (confirmed): for every nonempty sequence of runs that all exit 0,
starting with the active-state file absent, the persisted state after the
chain is `N` applications of the toggle rule (`get_inactive`) to the
bootstrap default `"green"`, where `N` is the number of runs. -/
theorem active_state_after_n_switches (rs : List EnvR)
    (hne : rs ≠ []) (hall : allSucceed none rs = true) :
    chainRuns none rs = some (get_inactive^[rs.length] "green") := by
  cases rs with
  | nil => exact absurd rfl hne
  | cons r rs =>
    simp only [allSucceed, Bool.and_eq_true, beq_iff_eq] at hall
    obtain ⟨h0, hrest⟩ := hall
    have hact : (main (mkEnv none r)).activeAfter = some "blue" := by
      rw [success_active _ h0]
      rfl
    rw [chainRuns, hact]
    rw [hact] at hrest
    rw [chain_from_color rs "blue" (Or.inl rfl) hrest]
    rw [List.length_cons, Function.iterate_succ_apply]
    rfl

/-- Witness for C9: a single all-success run from the bootstrap state
toggles the persisted state to one application of the toggle rule. -/
theorem active_state_after_n_switches_witness :
    allSucceed none [envROk] = true ∧
    chainRuns none [envROk] = some (get_inactive^[1] "green") :=
  ⟨by decide,
    active_state_after_n_switches [envROk] (by simp) (by decide)⟩

/-! ### Claim C10 -/

/-- C10 (confirmed): `get_active` always returns `"blue"` or `"green"`,
and any file content whose stripped value is neither is treated exactly
like an absent file, yielding `"green"`. -/
theorem get_active_always_blue_or_green :
    (∀ file : Option String,
      get_active file = "blue" ∨ get_active file = "green") ∧
    (∀ s : String, pyStrip s ≠ "blue" → pyStrip s ≠ "green" →
      get_active (some s) = get_active none) := by
  constructor
  · intro file
    match file with
    | none => exact Or.inr rfl
    | some s =>
      by_cases hb : pyStrip s = "blue"
      · left
        simp [get_active, hb]
      · by_cases hg : pyStrip s = "green"
        · right
          simp [get_active, hb, hg]
        · right
          simp [get_active, hb, hg]
  · intro s hb hg
    simp [get_active, hb, hg]

/-- Witness for C10 at a concrete corrupt file content. -/
theorem get_active_always_blue_or_green_witness :
    pyStrip " corrupt " ≠ "blue" ∧ pyStrip " corrupt " ≠ "green" ∧
    get_active (some " corrupt ") = get_active none :=
  ⟨by decide, by decide,
    get_active_always_blue_or_green.2 " corrupt " (by decide) (by decide)⟩

end SwitchDeploy
